import Mathlib

/-!
Verification of the OCR result-aggregation and mode-selection pipeline
(python-tesseract repository): a shallow embedding of
`src/parsers/ocr_parser.py`, `src/parsers/ocr_pipeline.py` and
`src/services/pdf_service.py`, together with theorems about the embedded
functions.

Modelling conventions:
* Python loops with `continue` become structural recursion over lists.
* Confidence scores produced by the recognizer are `Int` (the source casts
  them with `int(...)`); caller-supplied thresholds are `ℚ`
  (the source's `min_confidence: float`); averages are `ℚ`.
* Fallible code returns `Except PipelineError α`.
* Every call into an external collaborator (the pdf2image rasterizer or the
  pytesseract recognizer), and the one warning the pipeline can log, is
  recorded in a trace of `Event`s so that claims about "no collaborator
  calls" are observable.
-/

/-- Python's `str.strip()` on the character list: drop whitespace from both
ends. -/
def stripChars (cs : List Char) : List Char :=
  ((cs.dropWhile Char.isWhitespace).reverse.dropWhile Char.isWhitespace).reverse

/-- Python's `str.strip()` (no argument): the string with leading and
trailing whitespace removed. -/
def pyStrip (s : String) : String := ⟨stripChars s.data⟩

/-- Bounding box of one recognition element (pixel coordinates). -/
structure BBox where
  left : Int
  top : Int
  width : Int
  height : Int
deriving DecidableEq, Repr

/-- One row of the parallel-array dict returned by
`pytesseract.image_to_data` (`data['text'][i]`, `data['conf'][i]`,
`data['left'][i]`, ...). -/
structure RecognitionElement where
  text : String
  conf : Int
  bbox : BBox
deriving DecidableEq, Repr

/-- One entry of the `words` list built by
`TesseractOCRParser.extract_text_with_confidence`:
`{'text': ..., 'confidence': ..., 'bbox': {...}}`. -/
structure WordRecord where
  text : String
  confidence : Int
  bbox : BBox
deriving DecidableEq, Repr

/-- The dictionary returned by
`TesseractOCRParser.extract_text_with_confidence`. -/
structure AggregateResult where
  full_text : String
  words : List WordRecord
  avg_confidence : ℚ
  total_words : Nat
deriving DecidableEq, Repr

namespace TesseractOCRParser

/-- The word-collecting loop of `extract_text_with_confidence`
(ocr_parser.py lines 185-203):

    for i, text in enumerate(data['text']):
        if not text.strip():
            continue
        conf = int(data['conf'][i])
        if conf < min_confidence:
            continue
        words.append({'text': text, 'confidence': conf, 'bbox': {...}})
-/
def collectWords (min_confidence : ℚ) : List RecognitionElement → List WordRecord
  | [] => []
  | e :: rest =>
    if pyStrip e.text = "" then collectWords min_confidence rest
    else if (e.conf : ℚ) < min_confidence then collectWords min_confidence rest
    else ⟨e.text, e.conf, e.bbox⟩ :: collectWords min_confidence rest

/-- The aggregation part of `extract_text_with_confidence`
(ocr_parser.py lines 185-215), as a pure function of the recognition
elements already obtained from `extract_data`:

    valid_conf = [w['confidence'] for w in words if w['confidence'] > 0]
    avg_conf = sum(valid_conf) / len(valid_conf) if valid_conf else 0
    full_text = ' '.join(w['text'] for w in words)
    return {'full_text': full_text, 'words': words,
            'avg_confidence': avg_conf, 'total_words': len(words)}
-/
def extract_text_with_confidence (elements : List RecognitionElement)
    (min_confidence : ℚ) : AggregateResult :=
  let words := collectWords min_confidence elements
  let valid_conf := (words.filter (fun w => 0 < w.confidence)).map (·.confidence)
  let avg_conf : ℚ :=
    if valid_conf.isEmpty then 0
    else ((valid_conf.sum : Int) : ℚ) / (valid_conf.length : ℚ)
  let full_text := String.intercalate " " (words.map (·.text))
  { full_text := full_text
    words := words
    avg_confidence := avg_conf
    total_words := words.length }

end TesseractOCRParser

section Scenarios

/-- A throwaway bounding box for scenario inputs. -/
def bbox0 : BBox := ⟨0, 0, 0, 0⟩

/-- The element list of spec Scenarios A and B. -/
def scenarioAB : List RecognitionElement :=
  [⟨"Hello", 95, bbox0⟩, ⟨"", -1, bbox0⟩, ⟨"World", 88, bbox0⟩, ⟨"Test", 75, bbox0⟩]

/-- The element list of spec Scenario C. -/
def scenarioC : List RecognitionElement :=
  [⟨"Low", 30, bbox0⟩, ⟨"Quality", 40, bbox0⟩]

end Scenarios

/-- The recognition element a word record was built from. -/
def WordRecord.toElement (w : WordRecord) : RecognitionElement :=
  ⟨w.text, w.confidence, w.bbox⟩

/-- The confidences of the emitted words that are strictly positive — the
`valid_conf` list of `extract_text_with_confidence`, read off the result. -/
def posConfs (elements : List RecognitionElement) (t : ℚ) : List Int :=
  ((TesseractOCRParser.extract_text_with_confidence elements t).words.filter
      (fun w => 0 < w.confidence)).map (·.confidence)

/-- The typed failures of the pipeline: `FileNotFoundError`,
`PDFConversionError`, `OCRError`, and the (unreachable) `IndexError` from
`results[0]` on an empty list. -/
inductive PipelineError
  | fileNotFound
  | pdfConversionError
  | ocrError
  | indexError
deriving DecidableEq, Repr

/-- Observable events: calls into the two external collaborators, and the
single warning the pipeline can log. -/
inductive Event
  | rasterize
  | recognize
  | warnPageIgnored
deriving DecidableEq, Repr

/-- A bitmap together with the behaviour of the external recognizer on it:
`rawText` is what `pytesseract.image_to_string` would return, `data` what
`pytesseract.image_to_data` would return, and `tesseractFails` whether the
engine raises `TesseractError` (wrapped as `OCRError` by the parser). -/
structure OcrImage where
  rawText : String
  data : List RecognitionElement
  tesseractFails : Bool
deriving DecidableEq, Repr

/-- A PDF document as seen by the rasterizer: its pages, and whether the
pdf2image call raises (corrupted/protected/incompatible document). -/
structure PdfDoc where
  pages : List OcrImage
  malformed : Bool
deriving DecidableEq, Repr

/-- A path argument to the PDF service: whether the path exists, and the
document behind it. -/
structure PdfFile where
  fileExists : Bool
  doc : PdfDoc
deriving DecidableEq, Repr

namespace TesseractOCRParser

/-- `TesseractOCRParser.extract_text` (ocr_parser.py lines 75-110) on a
loaded image: one recognizer call; the extracted text is stripped; a
`TesseractError` is wrapped as `OCRError`. -/
def extract_text_run (img : OcrImage) : List Event × Except PipelineError String :=
  ([.recognize],
    if img.tesseractFails then .error .ocrError else .ok (pyStrip img.rawText))

/-- `TesseractOCRParser.extract_data` (ocr_parser.py lines 112-160) on a
loaded image: one recognizer call returning the parallel-array data. -/
def extract_data_run (img : OcrImage) : List Event × Except PipelineError (List RecognitionElement) :=
  ([.recognize],
    if img.tesseractFails then .error .ocrError else .ok img.data)

/-- `TesseractOCRParser.extract_text_with_confidence` (ocr_parser.py lines
162-215) on a loaded image: `extract_data` followed by the pure
aggregation. -/
def extract_text_with_confidence_run (img : OcrImage) (min_confidence : ℚ) :
    List Event × Except PipelineError AggregateResult :=
  let r := extract_data_run img
  (r.1, r.2.map (fun elements => extract_text_with_confidence elements min_confidence))

end TesseractOCRParser

namespace PDFToImageService

/-- The page slice produced by pdf2image's `convert_from_path` with optional
1-indexed inclusive `first_page`/`last_page` (defaulting to the whole
document). Modelled from the spec's Rasterizer contract — the library is an
external collaborator. -/
def convertFromPath (pages : List OcrImage) (firstPage lastPage : Option Int) :
    List OcrImage :=
  let fp : Int := firstPage.getD 1
  let lp : Int := lastPage.getD pages.length
  (pages.take lp.toNat).drop (fp - 1).toNat

/-- `PDFToImageService.convert_pdf_to_images` (pdf_service.py lines 35-87):
existence check, then the rasterizer call; a raising backend is wrapped as
`PDFConversionError`; an empty page list is itself a `PDFConversionError`. -/
def convert_pdf_to_images (f : PdfFile) (firstPage lastPage : Option Int) :
    List Event × Except PipelineError (List OcrImage) :=
  if !f.fileExists then ([], .error .fileNotFound)
  else if f.doc.malformed then ([.rasterize], .error .pdfConversionError)
  else
    let images := convertFromPath f.doc.pages firstPage lastPage
    ([.rasterize],
      if images.isEmpty then .error .pdfConversionError else .ok images)

/-- `PDFToImageService.convert_single_page` (pdf_service.py lines 89-117):
convert with `first_page = last_page = page_number` and take the first
image. -/
def convert_single_page (f : PdfFile) (page_number : Int) :
    List Event × Except PipelineError OcrImage :=
  match convert_pdf_to_images f (some page_number) (some page_number) with
  | (tr, .error e) => (tr, .error e)
  | (tr, .ok imgs) =>
    match imgs with
    | [] => (tr, .error .pdfConversionError)
    | i :: _ => (tr, .ok i)

end PDFToImageService

/-- The three output shapes a per-page request can produce. -/
inductive PageResult
  | text (s : String)
  | data (d : List RecognitionElement)
  | aggregate (a : AggregateResult)
deriving DecidableEq, Repr

/-- A whole-call result: a single unwrapped per-page result, or one result
per page. -/
inductive PipelineResult
  | single (r : PageResult)
  | pages (rs : List PageResult)
deriving DecidableEq, Repr

namespace OCRPipeline

/-- `OCRPipeline.process_image` (ocr_pipeline.py lines 52-84): dispatch with
precedence `min_confidence` over `extract_data` over plain text. -/
def process_image (img : OcrImage) (extract_data : Bool) (min_confidence : Option ℚ) :
    List Event × Except PipelineError PageResult :=
  match min_confidence with
  | some mc =>
    let r := TesseractOCRParser.extract_text_with_confidence_run img mc
    (r.1, r.2.map .aggregate)
  | none =>
    if extract_data then
      let r := TesseractOCRParser.extract_data_run img
      (r.1, r.2.map .data)
    else
      let r := TesseractOCRParser.extract_text_run img
      (r.1, r.2.map .text)

/-- Python truthiness of the optional `page_number` (`if page_number:`):
`None` and `0` are falsy. -/
def pageTruthy : Option Int → Bool
  | none => false
  | some n => n != 0

/-- The per-page loop of `process_pdf` (ocr_pipeline.py lines 116-120):
process images in order, aborting at the first failure. -/
def processPages (imgs : List OcrImage) (extract_data : Bool)
    (min_confidence : Option ℚ) :
    List Event × Except PipelineError (List PageResult) :=
  match imgs with
  | [] => ([], .ok [])
  | i :: rest =>
    let r := process_image i extract_data min_confidence
    match r.2 with
    | .error e => (r.1, .error e)
    | .ok pr =>
      let rs := processPages rest extract_data min_confidence
      (r.1 ++ rs.1, rs.2.map (pr :: ·))

/-- `OCRPipeline.process_pdf` (ocr_pipeline.py lines 86-130): rasterize one
page or all pages, run the per-page pipeline, and unwrap (`results[0]`)
exactly when `page_number` is truthy. -/
def process_pdf (f : PdfFile) (extract_data : Bool) (page_number : Option Int)
    (min_confidence : Option ℚ) :
    List Event × Except PipelineError PipelineResult :=
  let conv :=
    if pageTruthy page_number then
      let r := PDFToImageService.convert_single_page f (page_number.getD 0)
      (r.1, r.2.map (fun i => [i]))
    else PDFToImageService.convert_pdf_to_images f none none
  match conv with
  | (tr, .error e) => (tr, .error e)
  | (tr, .ok images) =>
    let rs := processPages images extract_data min_confidence
    match rs.2 with
    | .error e => (tr ++ rs.1, .error e)
    | .ok results =>
      if pageTruthy page_number then
        match results with
        | [] => (tr ++ rs.1, .error .indexError)
        | r :: _ => (tr ++ rs.1, .ok (.single r))
      else (tr ++ rs.1, .ok (.pages results))

end OCRPipeline

/-- A path argument to `OCRPipeline.process`: whether it exists, whether its
suffix classifies it as a PDF, and its content as each collaborator would
see it (only one of the two views is ever consulted). -/
structure InputFile where
  fileExists : Bool
  suffixIsPdf : Bool
  doc : PdfDoc
  image : OcrImage
deriving DecidableEq, Repr

namespace OCRPipeline

/-- `OCRPipeline.process` (ocr_pipeline.py lines 132-163): eager existence
check, then routing on the `.pdf` suffix; a truthy `page_number` on an image
input is ignored with a logged warning. -/
def process (f : InputFile) (extract_data : Bool) (page_number : Option Int)
    (min_confidence : Option ℚ) :
    List Event × Except PipelineError PipelineResult :=
  if !f.fileExists then ([], .error .fileNotFound)
  else if f.suffixIsPdf then
    process_pdf ⟨f.fileExists, f.doc⟩ extract_data page_number min_confidence
  else
    let warn : List Event := if pageTruthy page_number then [.warnPageIgnored] else []
    let r := process_image f.image extract_data min_confidence
    (warn ++ r.1, r.2.map .single)

/-- The page result `process_image` produces when the recognizer succeeds,
read off the mode arguments. -/
def pageResultOf (img : OcrImage) (extract_data : Bool) (min_confidence : Option ℚ) :
    PageResult :=
  match min_confidence with
  | some mc => .aggregate (TesseractOCRParser.extract_text_with_confidence img.data mc)
  | none => if extract_data then .data img.data else .text (pyStrip img.rawText)

end OCRPipeline

/-- A sample image whose recognizer data is the Scenario A/B element list. -/
def sampleImage : OcrImage := ⟨" Hello world ", scenarioAB, false⟩

/-- A second sample image, with the Scenario C element list. -/
def sampleImage2 : OcrImage := ⟨"Second", scenarioC, false⟩

/-- A sample 2-page PDF file for witnesses. -/
def samplePdfFile : PdfFile := ⟨true, ⟨[sampleImage, sampleImage2], false⟩⟩

/-- A sample PDF path whose document rasterizes to zero pages. -/
def emptyPdfFile : PdfFile := ⟨true, ⟨[], false⟩⟩

/-- A sample PDF path whose document makes the rasterizer backend raise. -/
def malformedPdfFile : PdfFile := ⟨true, ⟨[], true⟩⟩

/-- A sample image on which the recognizer raises. -/
def failingImage : OcrImage := ⟨"", [], true⟩

/-- A sample 2-page PDF whose second page makes the recognizer raise. -/
def failingPdfFile : PdfFile := ⟨true, ⟨[sampleImage, failingImage], false⟩⟩

/-- A sample input path that does not exist. -/
def missingInput : InputFile := ⟨false, true, ⟨[sampleImage], false⟩, sampleImage⟩

/-- A sample existing image input (non-PDF suffix). -/
def imageInput : InputFile := ⟨true, false, ⟨[], false⟩, sampleImage⟩

namespace TesseractOCRParser

/-- Every word emitted by the collecting loop has non-empty stripped text,
confidence at least the threshold, and originates from an input element. -/
theorem mem_collectWords {t : ℚ} {elements : List RecognitionElement} {w : WordRecord}
    (hw : w ∈ collectWords t elements) :
    pyStrip w.text ≠ "" ∧ t ≤ (w.confidence : ℚ) ∧ w.toElement ∈ elements := by
  induction elements with
  | nil => simp [collectWords] at hw
  | cons e rest ih =>
    by_cases h1 : pyStrip e.text = ""
    · rw [collectWords, if_pos h1] at hw
      obtain ⟨a, b, c⟩ := ih hw
      exact ⟨a, b, List.mem_cons_of_mem _ c⟩
    · by_cases h2 : (e.conf : ℚ) < t
      · rw [collectWords, if_neg h1, if_pos h2] at hw
        obtain ⟨a, b, c⟩ := ih hw
        exact ⟨a, b, List.mem_cons_of_mem _ c⟩
      · rw [collectWords, if_neg h1, if_neg h2] at hw
        rcases List.mem_cons.mp hw with rfl | hw'
        · exact ⟨h1, le_of_not_lt h2, List.mem_cons_self _ _⟩
        · obtain ⟨a, b, c⟩ := ih hw'
          exact ⟨a, b, List.mem_cons_of_mem _ c⟩

/-- The emitted words, mapped back to elements, form a sublist of the input:
the loop filters but never reorders. -/
theorem collectWords_sublist (t : ℚ) (elements : List RecognitionElement) :
    ((collectWords t elements).map WordRecord.toElement).Sublist elements := by
  induction elements with
  | nil => simp [collectWords]
  | cons e rest ih =>
    by_cases h1 : pyStrip e.text = ""
    · rw [collectWords, if_pos h1]
      exact ih.cons e
    · by_cases h2 : (e.conf : ℚ) < t
      · rw [collectWords, if_neg h1, if_pos h2]
        exact ih.cons e
      · rw [collectWords, if_neg h1, if_neg h2]
        exact List.Sublist.cons₂ e ih

/-- Raising the threshold can only remove words from the collecting loop. -/
theorem collectWords_length_antitone {t1 t2 : ℚ} (h : t1 ≤ t2)
    (elements : List RecognitionElement) :
    (collectWords t2 elements).length ≤ (collectWords t1 elements).length := by
  induction elements with
  | nil => simp [collectWords]
  | cons e rest ih =>
    by_cases h1 : pyStrip e.text = ""
    · simpa [collectWords, h1] using ih
    · by_cases h2 : (e.conf : ℚ) < t1
      · have h2' : (e.conf : ℚ) < t2 := lt_of_lt_of_le h2 h
        simpa [collectWords, h1, h2, h2'] using ih
      · by_cases h3 : (e.conf : ℚ) < t2
        · rw [collectWords, if_neg h1, if_pos h3, collectWords, if_neg h1, if_neg h2]
          exact le_trans ih (by simp)
        · rw [collectWords, if_neg h1, if_neg h3, collectWords, if_neg h1, if_neg h2]
          simpa using ih

end TesseractOCRParser

/-- C2: raising the confidence threshold never admits more words: for
`t1 ≤ t2`, `total_words` at threshold `t1` is at least `total_words` at
threshold `t2`, for every element list. -/
theorem c2_total_words_monotone_filtering (elements : List RecognitionElement)
    (t1 t2 : ℚ) (h : t1 ≤ t2) :
    (TesseractOCRParser.extract_text_with_confidence elements t2).total_words ≤
      (TesseractOCRParser.extract_text_with_confidence elements t1).total_words :=
  TesseractOCRParser.collectWords_length_antitone h elements

/-- Witness for C2: concrete thresholds 0 ≤ 80 on the scenario list. -/
theorem c2_total_words_monotone_filtering_witness :
    (0 : ℚ) ≤ 80 ∧
      (TesseractOCRParser.extract_text_with_confidence scenarioAB 80).total_words ≤
        (TesseractOCRParser.extract_text_with_confidence scenarioAB 0).total_words :=
  ⟨by norm_num, c2_total_words_monotone_filtering scenarioAB 0 80 (by norm_num)⟩

/-- C4: `full_text` is exactly the space-joined `text` fields of the returned
words, and the words (mapped back to their source elements) form a sublist of
the input element list — same relative order, never reordered. -/
theorem c4_order_preservation (elements : List RecognitionElement) (t : ℚ) :
    (TesseractOCRParser.extract_text_with_confidence elements t).full_text =
      String.intercalate " "
        ((TesseractOCRParser.extract_text_with_confidence elements t).words.map (·.text)) ∧
    (((TesseractOCRParser.extract_text_with_confidence elements t).words.map
        WordRecord.toElement).Sublist elements) :=
  ⟨rfl, TesseractOCRParser.collectWords_sublist t elements⟩

/-- Helper: the average confidence of an aggregate, expressed through the
concrete list of positive confidences among the emitted words. -/
theorem avg_confidence_eq (elements : List RecognitionElement) (mc : ℚ) (cs : List Int)
    (h : ((TesseractOCRParser.collectWords mc elements).filter
        (fun w => 0 < w.confidence)).map (·.confidence) = cs) :
    (TesseractOCRParser.extract_text_with_confidence elements mc).avg_confidence =
      if cs.isEmpty then 0 else ((cs.sum : Int) : ℚ) / (cs.length : ℚ) := by
  simp only [TesseractOCRParser.extract_text_with_confidence, h]


/-- Every entry of `posConfs` is strictly positive, and bounded by 100 when
all input confidences are. -/
theorem posConfs_bounds {elements : List RecognitionElement} {t : ℚ}
    (hconf : ∀ e ∈ elements, e.conf ≤ 100) :
    ∀ c ∈ posConfs elements t, 0 < c ∧ c ≤ 100 := by
  intro c hc
  simp only [posConfs, List.mem_map] at hc
  obtain ⟨w, hwf, rfl⟩ := hc
  rw [List.mem_filter] at hwf
  obtain ⟨hw, hwpos⟩ := hwf
  have h100 := hconf _ (TesseractOCRParser.mem_collectWords hw).2.2
  exact ⟨by simpa using hwpos, h100⟩

/-- C3: when all input confidences are at most 100, the returned
`avg_confidence` lies in [0, 100]; it is the arithmetic mean of the strictly
positive confidences among the emitted words when any exist, and exactly 0
when none exist — in particular whenever `total_words` is 0. -/
theorem c3_avg_confidence_bounds (elements : List RecognitionElement) (t : ℚ)
    (hconf : ∀ e ∈ elements, e.conf ≤ 100) :
    (0 ≤ (TesseractOCRParser.extract_text_with_confidence elements t).avg_confidence ∧
      (TesseractOCRParser.extract_text_with_confidence elements t).avg_confidence ≤ 100) ∧
    (posConfs elements t ≠ [] →
      (TesseractOCRParser.extract_text_with_confidence elements t).avg_confidence =
        (((posConfs elements t).sum : Int) : ℚ) / ((posConfs elements t).length : ℚ)) ∧
    (posConfs elements t = [] →
      (TesseractOCRParser.extract_text_with_confidence elements t).avg_confidence = 0) ∧
    ((TesseractOCRParser.extract_text_with_confidence elements t).total_words = 0 →
      (TesseractOCRParser.extract_text_with_confidence elements t).avg_confidence = 0) := by
  have havg := avg_confidence_eq elements t (posConfs elements t) rfl
  have hbd := posConfs_bounds (t := t) hconf
  by_cases hemp : posConfs elements t = []
  · rw [havg, if_pos (by simp [hemp])]
    refine ⟨⟨le_refl 0, by norm_num⟩, fun h => absurd hemp h, fun _ => rfl, fun _ => rfl⟩
  · have hlen : 0 < (posConfs elements t).length := List.length_pos.mpr hemp
    have hlenQ : (0 : ℚ) < ((posConfs elements t).length : ℚ) := by exact_mod_cast hlen
    have hsum0 : (0 : Int) ≤ (posConfs elements t).sum :=
      List.sum_nonneg (fun c hc => le_of_lt (hbd c hc).1)
    have hsum100 : (posConfs elements t).sum ≤ (posConfs elements t).length • (100 : Int) :=
      List.sum_le_card_nsmul _ _ (fun c hc => (hbd c hc).2)
    rw [havg, if_neg (by simp [hemp])]
    refine ⟨⟨div_nonneg (by exact_mod_cast hsum0) (le_of_lt hlenQ), ?_⟩,
      fun _ => rfl, fun h => absurd h hemp, fun htw => ?_⟩
    · rw [div_le_iff₀ hlenQ]
      have hz : (posConfs elements t).sum ≤ ((posConfs elements t).length : Int) * 100 := by
        simpa [nsmul_eq_mul] using hsum100
      have hq : (((posConfs elements t).sum : Int) : ℚ) ≤
          ((posConfs elements t).length : ℚ) * 100 := by
        exact_mod_cast hz
      linarith
    · exfalso
      have hwnil : (TesseractOCRParser.extract_text_with_confidence elements t).words = [] :=
        List.length_eq_zero.mp htw
      have : posConfs elements t = [] := by
        simp [posConfs, hwnil]
      exact hemp this

/-- Witness for C3: the scenario list at threshold 0. -/
theorem c3_avg_confidence_bounds_witness :
    (∀ e ∈ scenarioAB, e.conf ≤ 100) ∧
    ((0 ≤ (TesseractOCRParser.extract_text_with_confidence scenarioAB 0).avg_confidence ∧
      (TesseractOCRParser.extract_text_with_confidence scenarioAB 0).avg_confidence ≤ 100) ∧
    (posConfs scenarioAB 0 ≠ [] →
      (TesseractOCRParser.extract_text_with_confidence scenarioAB 0).avg_confidence =
        (((posConfs scenarioAB 0).sum : Int) : ℚ) / ((posConfs scenarioAB 0).length : ℚ)) ∧
    (posConfs scenarioAB 0 = [] →
      (TesseractOCRParser.extract_text_with_confidence scenarioAB 0).avg_confidence = 0) ∧
    ((TesseractOCRParser.extract_text_with_confidence scenarioAB 0).total_words = 0 →
      (TesseractOCRParser.extract_text_with_confidence scenarioAB 0).avg_confidence = 0)) :=
  ⟨by decide, c3_avg_confidence_bounds scenarioAB 0 (by decide)⟩

/-- C1: On the scenario element lists, `extract_text_with_confidence`
returns: at `min_confidence = 0` total_words 3, full_text
"Hello World Test", avg_confidence 86; at `min_confidence = 80`
total_words 2, full_text "Hello World", avg_confidence 91.5; and for the
low-quality list at `min_confidence = 90` total_words 0, empty full_text,
avg_confidence 0. -/
theorem c1_scenario_values :
    (TesseractOCRParser.extract_text_with_confidence scenarioAB 0).total_words = 3 ∧
    (TesseractOCRParser.extract_text_with_confidence scenarioAB 0).full_text = "Hello World Test" ∧
    (TesseractOCRParser.extract_text_with_confidence scenarioAB 0).avg_confidence = 86 ∧
    (TesseractOCRParser.extract_text_with_confidence scenarioAB 80).total_words = 2 ∧
    (TesseractOCRParser.extract_text_with_confidence scenarioAB 80).full_text = "Hello World" ∧
    (TesseractOCRParser.extract_text_with_confidence scenarioAB 80).avg_confidence = 183 / 2 ∧
    (TesseractOCRParser.extract_text_with_confidence scenarioC 90).total_words = 0 ∧
    (TesseractOCRParser.extract_text_with_confidence scenarioC 90).full_text = "" ∧
    (TesseractOCRParser.extract_text_with_confidence scenarioC 90).avg_confidence = 0 := by
  refine ⟨by decide, by decide, ?_, by decide, by decide, ?_, by decide, by decide, ?_⟩
  · rw [avg_confidence_eq scenarioAB 0 [95, 88, 75] (by decide)]
    norm_num
  · rw [avg_confidence_eq scenarioAB 80 [95, 88] (by decide)]
    norm_num
  · rw [avg_confidence_eq scenarioC 90 [] (by decide)]
    norm_num

/-- C5 counterexample: the claim fails as stated for an arbitrary
caller-supplied threshold — with elements `[("X", -1, bbox)]` and threshold
`-5`, the word `("X", -1)` is emitted, and its confidence `-1` is not in the
range 0–100. -/
theorem c5_counterexample :
    ¬ (∀ (elements : List RecognitionElement) (t : ℚ),
        ∀ w ∈ (TesseractOCRParser.extract_text_with_confidence elements t).words,
          pyStrip w.text ≠ "" ∧ t ≤ (w.confidence : ℚ) ∧
            0 ≤ w.confidence ∧ w.confidence ≤ 100) := by
  intro h
  have hmem : (⟨"X", -1, bbox0⟩ : WordRecord) ∈
      (TesseractOCRParser.extract_text_with_confidence [⟨"X", -1, bbox0⟩] (-5)).words := by
    decide
  have hx := h [⟨"X", -1, bbox0⟩] (-5) _ hmem
  exact absurd hx.2.2.1 (by decide)

/-- C5 amended: for thresholds ≥ 0 and input confidences at most 100, every
emitted word has non-empty stripped text, confidence at least the threshold,
and confidence within 0–100. -/
theorem c5_amended_word_invariants (elements : List RecognitionElement) (t : ℚ)
    (ht : 0 ≤ t) (hconf : ∀ e ∈ elements, e.conf ≤ 100) :
    ∀ w ∈ (TesseractOCRParser.extract_text_with_confidence elements t).words,
      pyStrip w.text ≠ "" ∧ t ≤ (w.confidence : ℚ) ∧
        0 ≤ w.confidence ∧ w.confidence ≤ 100 := by
  intro w hw
  obtain ⟨h1, h2, h3⟩ := TesseractOCRParser.mem_collectWords hw
  have h100 : w.confidence ≤ 100 := hconf _ h3
  have h0 : (0 : ℚ) ≤ (w.confidence : ℚ) := le_trans ht h2
  exact ⟨h1, h2, by exact_mod_cast h0, h100⟩

/-- Witness for amended C5: the scenario list at threshold 0. -/
theorem c5_amended_word_invariants_witness :
    (0 : ℚ) ≤ 0 ∧ (∀ e ∈ scenarioAB, e.conf ≤ 100) ∧
    (∀ w ∈ (TesseractOCRParser.extract_text_with_confidence scenarioAB 0).words,
      pyStrip w.text ≠ "" ∧ (0 : ℚ) ≤ (w.confidence : ℚ) ∧
        0 ≤ w.confidence ∧ w.confidence ≤ 100) :=
  ⟨le_refl 0, by decide, c5_amended_word_invariants scenarioAB 0 (le_refl 0) (by decide)⟩


namespace OCRPipeline

/-- Processing one image makes exactly one recognizer call, whatever the
mode and outcome. -/
theorem process_image_trace (img : OcrImage) (extract_data : Bool)
    (min_confidence : Option ℚ) :
    (process_image img extract_data min_confidence).1 = [Event.recognize] := by
  cases min_confidence <;> cases extract_data <;>
    simp [process_image, TesseractOCRParser.extract_text_with_confidence_run,
      TesseractOCRParser.extract_data_run, TesseractOCRParser.extract_text_run]

/-- When the recognizer succeeds, `process_image` returns the page result
determined by the mode arguments, after one recognizer call. -/
theorem process_image_ok {img : OcrImage} (h : img.tesseractFails = false)
    (extract_data : Bool) (min_confidence : Option ℚ) :
    process_image img extract_data min_confidence =
      ([Event.recognize], .ok (pageResultOf img extract_data min_confidence)) := by
  cases min_confidence <;> cases extract_data <;>
    simp [process_image, pageResultOf, h, Except.map,
      TesseractOCRParser.extract_text_with_confidence_run,
      TesseractOCRParser.extract_data_run, TesseractOCRParser.extract_text_run]

/-- When the recognizer fails, `process_image` fails with `OCRError`. -/
theorem process_image_fail {img : OcrImage} (h : img.tesseractFails = true)
    (extract_data : Bool) (min_confidence : Option ℚ) :
    process_image img extract_data min_confidence =
      ([Event.recognize], .error .ocrError) := by
  cases min_confidence <;> cases extract_data <;>
    simp [process_image, h, Except.map,
      TesseractOCRParser.extract_text_with_confidence_run,
      TesseractOCRParser.extract_data_run, TesseractOCRParser.extract_text_run]

end OCRPipeline


/-- C6: exactly one output shape per `process_image` call, with precedence
confidence-filter > raw-data > plain-text: a supplied threshold yields the
confidence-filtered aggregate even when the data-extraction flag is set;
with no threshold the flag selects raw data; otherwise plain text.
(Stated for inputs on which the recognizer succeeds; otherwise the call
raises instead of returning.) -/
theorem c6_mode_precedence (img : OcrImage) (extract_data : Bool) (t : ℚ)
    (h : img.tesseractFails = false) :
    (OCRPipeline.process_image img extract_data (some t)).2 =
      .ok (.aggregate (TesseractOCRParser.extract_text_with_confidence img.data t)) ∧
    (OCRPipeline.process_image img true none).2 = .ok (.data img.data) ∧
    (OCRPipeline.process_image img false none).2 = .ok (.text (pyStrip img.rawText)) := by
  refine ⟨?_, ?_, ?_⟩ <;>
    rw [OCRPipeline.process_image_ok h] <;> simp [OCRPipeline.pageResultOf]

/-- Witness for C6: the sample image with the data-extraction flag set and
threshold 80. -/
theorem c6_mode_precedence_witness :
    sampleImage.tesseractFails = false ∧
    ((OCRPipeline.process_image sampleImage true (some 80)).2 =
      .ok (.aggregate (TesseractOCRParser.extract_text_with_confidence sampleImage.data 80)) ∧
    (OCRPipeline.process_image sampleImage true none).2 = .ok (.data sampleImage.data) ∧
    (OCRPipeline.process_image sampleImage false none).2 =
      .ok (.text (pyStrip sampleImage.rawText))) :=
  ⟨rfl, c6_mode_precedence sampleImage true 80 rfl⟩

namespace OCRPipeline

/-- When the recognizer succeeds on every page, the per-page loop returns
one result per page, in order, with one recognizer call per page. -/
theorem processPages_all_ok {imgs : List OcrImage}
    (h : ∀ img ∈ imgs, img.tesseractFails = false) (extract_data : Bool)
    (min_confidence : Option ℚ) :
    processPages imgs extract_data min_confidence =
      (imgs.map (fun _ => Event.recognize),
        .ok (imgs.map (fun i => pageResultOf i extract_data min_confidence))) := by
  induction imgs with
  | nil => simp [processPages]
  | cons i rest ih =>
    have hi := h i (List.mem_cons_self i rest)
    rw [processPages, process_image_ok hi,
      ih (fun x hx => h x (List.mem_cons_of_mem _ hx))]
    simp [Except.map]

/-- If the recognizer fails on any page, the per-page loop fails with
`OCRError` — no partial list of results is returned. -/
theorem processPages_fail {imgs : List OcrImage}
    (h : ∃ img ∈ imgs, img.tesseractFails = true) (extract_data : Bool)
    (min_confidence : Option ℚ) :
    (processPages imgs extract_data min_confidence).2 = .error .ocrError := by
  induction imgs with
  | nil => simp at h
  | cons i rest ih =>
    by_cases hi : i.tesseractFails = true
    · rw [processPages, process_image_fail hi]
    · obtain ⟨x, hx, hfx⟩ := h
      rcases List.mem_cons.mp hx with rfl | hx'
      · exact absurd hfx hi
      · have hfi : i.tesseractFails = false := by simpa using hi
        have hrec := ih ⟨x, hx', hfx⟩
        rw [processPages, process_image_ok hfi]
        simp only []
        cases hps : (processPages rest extract_data min_confidence).2 with
        | error e =>
          rw [hps] at hrec
          simp at hrec
          simp [hps, hrec, Except.map]
        | ok v =>
          rw [hps] at hrec
          simp at hrec
end OCRPipeline

namespace PDFToImageService

/-- Rasterizing with no page bounds returns all pages (or the zero-page
`PDFConversionError`), for an existing, well-formed document. -/
theorem convert_all_pages {f : PdfFile} (hex : f.fileExists = true)
    (hmal : f.doc.malformed = false) :
    convert_pdf_to_images f none none =
      ([Event.rasterize],
        if f.doc.pages.isEmpty then .error .pdfConversionError
        else .ok f.doc.pages) := by
  simp [convert_pdf_to_images, hex, hmal, convertFromPath]

/-- Rasterizing page `n` (1-indexed, in range) of an existing, well-formed
document yields exactly that page. -/
theorem convert_single_page_eq {f : PdfFile} (hex : f.fileExists = true)
    (hmal : f.doc.malformed = false) {n : Nat} (hn : 1 ≤ n)
    (hlt : n - 1 < f.doc.pages.length) :
    convert_single_page f (n : Int) =
      ([Event.rasterize], .ok (f.doc.pages.get ⟨n - 1, hlt⟩)) := by
  have hslice : convertFromPath f.doc.pages (some (n : Int)) (some (n : Int)) =
      [f.doc.pages.get ⟨n - 1, hlt⟩] := by
    unfold convertFromPath
    have h1 : ((n : Int)).toNat = n := Int.toNat_natCast n
    have h2 : ((n : Int) - 1).toNat = n - 1 := by omega
    simp only [Option.getD_some, h1, h2]
    rw [List.drop_take]
    have h3 : n - (n - 1) = 1 := by omega
    rw [h3, show f.doc.pages.drop (n - 1) =
        f.doc.pages.get ⟨n - 1, hlt⟩ :: f.doc.pages.drop (n - 1 + 1) from
      List.drop_eq_getElem_cons hlt]
    rfl
  rw [convert_single_page]
  rw [show convert_pdf_to_images f (some (n : Int)) (some (n : Int)) =
      ([Event.rasterize], .ok [f.doc.pages.get ⟨n - 1, hlt⟩]) from by
    simp [convert_pdf_to_images, hex, hmal, hslice]]

end PDFToImageService


/-- C7: with a supplied in-range `page_number ≥ 1`, `process_pdf` rasterizes
exactly that page (one rasterizer call, one recognizer call) and returns the
single PageResult unwrapped; with `page_number` omitted it rasterizes all
pages and returns one PageResult per page, in page order. (Stated for an
existing, well-formed document whose pages the recognizer handles.) -/
theorem c7_page_number_selection (f : PdfFile) (extract_data : Bool)
    (mc : Option ℚ) (n : Nat) (hex : f.fileExists = true)
    (hmal : f.doc.malformed = false) :
    (∀ (hn : 1 ≤ n) (hlt : n - 1 < f.doc.pages.length),
      (f.doc.pages.get ⟨n - 1, hlt⟩).tesseractFails = false →
      OCRPipeline.process_pdf f extract_data (some (n : Int)) mc =
        ([Event.rasterize, Event.recognize],
          .ok (.single (OCRPipeline.pageResultOf (f.doc.pages.get ⟨n - 1, hlt⟩)
            extract_data mc)))) ∧
    (f.doc.pages ≠ [] → (∀ img ∈ f.doc.pages, img.tesseractFails = false) →
      OCRPipeline.process_pdf f extract_data none mc =
        (Event.rasterize :: f.doc.pages.map (fun _ => Event.recognize),
          .ok (.pages (f.doc.pages.map
            (fun i => OCRPipeline.pageResultOf i extract_data mc))))) := by
  constructor
  · intro hn hlt hfp
    have htr : OCRPipeline.pageTruthy (some (n : Int)) = true := by
      simp only [OCRPipeline.pageTruthy, bne_iff_ne, ne_eq, decide_eq_true_eq]
      omega
    rw [OCRPipeline.process_pdf]
    rw [if_pos htr, Option.getD_some,
      PDFToImageService.convert_single_page_eq hex hmal hn hlt]
    have hone : ∀ img ∈ [f.doc.pages.get ⟨n - 1, hlt⟩], img.tesseractFails = false := by
      simpa using hfp
    simp only [Except.map]
    rw [OCRPipeline.processPages_all_ok hone]
    simp [htr]
  · intro hne hall
    have htr : OCRPipeline.pageTruthy none = false := rfl
    rw [OCRPipeline.process_pdf, if_neg (by simp [htr]),
      PDFToImageService.convert_all_pages hex hmal]
    have hne' : f.doc.pages.isEmpty = false := by
      simpa [List.isEmpty_iff] using hne
    rw [if_neg (by simp [hne'])]
    simp [OCRPipeline.processPages_all_ok hall, htr]

/-- Witness for C7: page 2 of the 2-page sample PDF, and the whole
document. -/
theorem c7_page_number_selection_witness :
    OCRPipeline.process_pdf samplePdfFile false (some 2) none =
      ([Event.rasterize, Event.recognize],
        .ok (.single (OCRPipeline.pageResultOf sampleImage2 false none))) ∧
    OCRPipeline.process_pdf samplePdfFile false none none =
      ([Event.rasterize, Event.recognize, Event.recognize],
        .ok (.pages [OCRPipeline.pageResultOf sampleImage false none,
          OCRPipeline.pageResultOf sampleImage2 false none])) := by
  have h := c7_page_number_selection samplePdfFile false none 2 rfl rfl
  refine ⟨?_, ?_⟩
  · have h1 := h.1 (by norm_num) (by decide) (by rfl)
    simpa [samplePdfFile] using h1
  · have h2 := h.2 (by decide) (by decide)
    simpa [samplePdfFile] using h2


/-- C9: for every mode, a rasterizer that produces zero pages, a raising
rasterizer backend, or a recognizer failure on any page each abort the whole
`process_pdf` call with the corresponding typed error (`PDFConversionError`
for zero pages or backend failure, `OCRError` for recognition), so no
partial page results are returned even when earlier pages succeeded. -/
theorem c9_fail_fast (f : PdfFile) (extract_data : Bool) (mc : Option ℚ)
    (hex : f.fileExists = true) :
    (f.doc.malformed = false → f.doc.pages = [] →
      (OCRPipeline.process_pdf f extract_data none mc).2 =
        .error .pdfConversionError) ∧
    (f.doc.malformed = true →
      (OCRPipeline.process_pdf f extract_data none mc).2 =
        .error .pdfConversionError) ∧
    (f.doc.malformed = false → (∃ img ∈ f.doc.pages, img.tesseractFails = true) →
      (OCRPipeline.process_pdf f extract_data none mc).2 = .error .ocrError) := by
  refine ⟨?_, ?_, ?_⟩
  · intro hmal hnil
    rw [OCRPipeline.process_pdf, if_neg (by simp [OCRPipeline.pageTruthy]),
      PDFToImageService.convert_all_pages hex hmal]
    simp [hnil]
  · intro hmal
    simp [OCRPipeline.process_pdf, OCRPipeline.pageTruthy,
      PDFToImageService.convert_pdf_to_images, hex, hmal]
  · intro hmal hfail
    rw [OCRPipeline.process_pdf, if_neg (by simp [OCRPipeline.pageTruthy]),
      PDFToImageService.convert_all_pages hex hmal]
    have hne : f.doc.pages.isEmpty = false := by
      obtain ⟨x, hx, _⟩ := hfail
      simp [List.isEmpty_iff, List.ne_nil_of_mem hx]
    rw [if_neg (by simp [hne])]
    simp [OCRPipeline.processPages_fail hfail, OCRPipeline.pageTruthy]

/-- Witness for C9: a zero-page document, a malformed document, and a
document whose second page fails recognition. -/
theorem c9_fail_fast_witness :
    (OCRPipeline.process_pdf emptyPdfFile false none none).2 =
      .error .pdfConversionError ∧
    (OCRPipeline.process_pdf malformedPdfFile true none (some 50)).2 =
      .error .pdfConversionError ∧
    (OCRPipeline.process_pdf failingPdfFile false none none).2 =
      .error .ocrError :=
  ⟨(c9_fail_fast emptyPdfFile false none rfl).1 rfl rfl,
    (c9_fail_fast malformedPdfFile true (some 50) rfl).2.1 rfl,
    (c9_fail_fast failingPdfFile false none rfl).2.2 rfl
      ⟨failingImage, by decide, rfl⟩⟩


/-- C8: when the input path does not exist, `process` fails with the
not-found error and the event trace is empty: no rasterizer or recognizer
call is made, whatever the mode arguments and file content. -/
theorem c8_eager_not_found (f : InputFile) (extract_data : Bool)
    (page_number : Option Int) (mc : Option ℚ) (h : f.fileExists = false) :
    OCRPipeline.process f extract_data page_number mc =
      ([], .error .fileNotFound) := by
  simp [OCRPipeline.process, h]

/-- Witness for C8: a missing path with every optional argument supplied. -/
theorem c8_eager_not_found_witness :
    OCRPipeline.process missingInput true (some 3) (some 75) =
      ([], .error .fileNotFound) :=
  c8_eager_not_found missingInput true (some 3) (some 75) rfl


/-- C10: `page_number = 0` is falsy, so `process_pdf` behaves exactly as if
`page_number` were omitted (whole document, sequence result); and `process`
on an image input with `page_number = 0` logs no ignored-parameter
warning. -/
theorem c10_page_zero_truthiness (f : PdfFile) (g : InputFile)
    (extract_data : Bool) (mc : Option ℚ) :
    OCRPipeline.process_pdf f extract_data (some 0) mc =
      OCRPipeline.process_pdf f extract_data none mc ∧
    (g.suffixIsPdf = false →
      OCRPipeline.process g extract_data (some 0) mc =
        OCRPipeline.process g extract_data none mc ∧
      Event.warnPageIgnored ∉ (OCRPipeline.process g extract_data (some 0) mc).1) := by
  refine ⟨rfl, fun h => ⟨rfl, ?_⟩⟩
  by_cases hex : g.fileExists
  · simp [OCRPipeline.process, hex, h, OCRPipeline.pageTruthy,
      OCRPipeline.process_image_trace]
  · simp [OCRPipeline.process, hex]

/-- Witness for C10: the sample PDF and the sample image input. -/
theorem c10_page_zero_truthiness_witness :
    OCRPipeline.process_pdf samplePdfFile false (some 0) none =
      OCRPipeline.process_pdf samplePdfFile false none none ∧
    (OCRPipeline.process imageInput false (some 0) none =
      OCRPipeline.process imageInput false none none ∧
    Event.warnPageIgnored ∉ (OCRPipeline.process imageInput false (some 0) none).1) := by
  have h := c10_page_zero_truthiness samplePdfFile imageInput false none
  exact ⟨h.1, h.2 rfl⟩
